import Mathlib

/-!
Shallow embedding of `src/vendor/systemd/src/boot/efi/linux.c` (the kernel
handover stub of core-initrd): the x86 Linux boot-protocol path
(`linux_exec`, `linux_efi_handover`) and the arm64 path
(`linux_aarch64_exec`, `update_fdt`, `open_fdt`).

Machine integers are modelled as `Nat` with explicit `% 2^w` at the points
where the C code truncates (casts to `UINT32`).  Firmware services
(`BS->AllocatePages`, the configuration-table lookup) are modelled as
explicit environment parameters; every call the code makes to them is
recorded in the outcome so that "no allocation happened" and "no property
write was attempted" are provable statements.
-/

/-- EFI error bit: an `EFI_STATUS` with the top bit set is an error
(`EFI_ERROR(err)` in C). -/
def EFI_ERR : Nat := 2 ^ 63

/-- `EFI_LOAD_ERROR` status code (EFIERR(1)). -/
def EFI_LOAD_ERROR : Nat := EFI_ERR + 1

/-- Modelled from the spec: `SETUP_MAGIC` comes from the missing header
`linux.h`; it is the Linux boot-protocol setup-header magic ("HdrS").
Its concrete value is irrelevant to every claim: the code only compares
the image header field against it. -/
def SETUP_MAGIC : Nat := 0x53726448

/-- EFI page size in bytes. -/
def pageSize : Nat := 4096

/-- `EFI_SIZE_TO_PAGES(n)`: number of pages covering `n` bytes. -/
def sizeToPages (n : Nat) : Nat := (n + (pageSize - 1)) / pageSize

/-- Modelled from the spec: the fields of `struct setup_header` from the
missing `linux.h` that `linux.c` reads or writes, plus `rest`, which
stands for all remaining bytes of the header region; `CopyMem` copies
them verbatim and nothing in `linux_exec` ever touches them again.
Field widths from the boot protocol: `setup_sects`, `relocatable_kernel`
and `type_of_loader` are bytes, `boot_flag` and `version` are 16-bit,
the others 32-bit. -/
structure setup_header where
  setup_sects : Nat
  boot_flag : Nat
  header : Nat
  version : Nat
  relocatable_kernel : Nat
  type_of_loader : Nat
  code32_start : Nat
  cmd_line_ptr : Nat
  ramdisk_image : Nat
  ramdisk_size : Nat
  handover_offset : Nat
  rest : List Nat
deriving DecidableEq, Repr

/-- One `AllocatePages(AllocateMaxAddress, EfiLoaderData, pages, &maxAddr)`
request issued by the code. -/
structure AllocReq where
  maxAddr : Nat
  pages : Nat
deriving DecidableEq, Repr

/-- The firmware allocator: for each call (indexed in program order) and
request, either an error status or the physical address of the
allocation. -/
def Allocator : Type := Nat → AllocReq → Except Nat Nat

/-- The `AllocateMaxAddress` contract of `BS->AllocatePages`: a successful
allocation is page-aligned and its last byte lies at or below the
requested maximum address. -/
def AllocRespects (alloc : Allocator) : Prop :=
  ∀ i r a, alloc i r = Except.ok a →
    a % pageSize = 0 ∧ a + pageSize * r.pages ≤ r.maxAddr + 1

/-- The recorded non-returning `handover_f` call: whether interrupts were
disabled first (`asm volatile ("cli")`), the computed entry address, and
the three arguments `handover(arg1, arg2, arg3)`. -/
structure HandoverCall where
  cli : Bool
  entry : Nat
  arg1 : Nat
  arg2 : Nat
  arg3 : Nat
deriving DecidableEq, Repr

/-- `linux_efi_handover(image, params)`: `start = params->hdr.code32_start`;
on x86_64, `cli` then `start += 512`; jump to `start +
params->hdr.handover_offset` with arguments `(image, ST, params)`.  The
sum is `UINTN` arithmetic, so it wraps at the word width of the build:
32 bits on the i386 build, 64 bits on x86_64. -/
def linux_efi_handover (is64 : Bool) (st image paramsAddr : Nat)
    (hdr : setup_header) : HandoverCall :=
  let start := hdr.code32_start
  let start := if is64 then start + 512 else start
  { cli := is64
    entry := (start + hdr.handover_offset) % (if is64 then 2 ^ 64 else 2 ^ 32)
    arg1 := image
    arg2 := st
    arg3 := paramsAddr }

/-- Everything observable about one run of `linux_exec`: the returned
`EFI_STATUS`, the allocation requests issued (in order), the address of
the allocated `boot_params` block, the final contents of its header
region, the zero-filled remainder of the 16 KiB block (the bytes
outside the header region; their count is the model parameter
`otherLen`), the staged command-line buffer (address and bytes written),
and the handover call if one was made. -/
structure X86Outcome where
  status : Nat
  allocCalls : List AllocReq
  bootParamsAddr : Option Nat
  bootHdr : Option setup_header
  blockOther : Option (List Nat)
  cmdlineBuf : Option (Nat × List Nat)
  call : Option HandoverCall
deriving DecidableEq, Repr

/-- `setup_sectors = hdr.setup_sects > 0 ? hdr.setup_sects : 4`. -/
def setupSectors (h : setup_header) : Nat :=
  if h.setup_sects > 0 then h.setup_sects else 4

/-- `linux_exec(image, cmdline, cmdline_len, linux_addr, initrd_addr,
initrd_size)`.  `cmdline` is `none` for a NULL pointer and
`some bytes` otherwise (so `cmdline_len = bytes.length`); `image_hdr` is
the setup header embedded in the image at `linux_addr`; `otherLen` is
the byte count of the 16 KiB `boot_params` block outside the header
region (its exact value depends on the missing `linux.h` layout and
matters to no claim); `is64` selects the x86_64 build. -/
def linux_exec (alloc : Allocator) (is64 : Bool) (st image : Nat)
    (cmdline : Option (List Nat)) (linux_addr initrd_addr initrd_size : Nat)
    (image_hdr : setup_header) (otherLen : Nat) : X86Outcome :=
  if image_hdr.boot_flag ≠ 0xAA55 ∨ image_hdr.header ≠ SETUP_MAGIC ∨
      image_hdr.version < 0x20b ∨ image_hdr.relocatable_kernel = 0 then
    { status := EFI_LOAD_ERROR, allocCalls := [], bootParamsAddr := none,
      bootHdr := none, blockOther := none, cmdlineBuf := none, call := none }
  else
    let req1 : AllocReq := { maxAddr := 0xFFFFFFFF, pages := sizeToPages 0x4000 }
    match alloc 0 req1 with
    | Except.error e =>
        { status := e, allocCalls := [req1], bootParamsAddr := none,
          bootHdr := none, blockOther := none, cmdlineBuf := none, call := none }
    | Except.ok bp =>
        -- ZeroMem(boot_params, 0x4000); CopyMem(&boot_params->hdr, &image_params->hdr, ...)
        let other := List.replicate otherLen 0
        -- boot_params->hdr.type_of_loader = 0xff;
        -- boot_params->hdr.code32_start = (UINT32)linux_addr + (setup_sectors + 1) * 512;
        let hdr0 := { image_hdr with
          type_of_loader := 0xff
          code32_start := (linux_addr % 2 ^ 32 + (setupSectors image_hdr + 1) * 512) % 2 ^ 32 }
        match cmdline with
        | none =>
            let hdr2 := { hdr0 with
              ramdisk_image := initrd_addr % 2 ^ 32
              ramdisk_size := initrd_size % 2 ^ 32 }
            { status := EFI_LOAD_ERROR, allocCalls := [req1],
              bootParamsAddr := some bp, bootHdr := some hdr2,
              blockOther := some other, cmdlineBuf := none,
              call := some (linux_efi_handover is64 st image bp hdr2) }
        | some cl =>
            let req2 : AllocReq := { maxAddr := 0xA0000, pages := sizeToPages (cl.length + 1) }
            match alloc 1 req2 with
            | Except.error e =>
                { status := e, allocCalls := [req1, req2],
                  bootParamsAddr := some bp, bootHdr := some hdr0,
                  blockOther := some other, cmdlineBuf := none, call := none }
            | Except.ok a =>
                -- CopyMem(addr, cmdline, cmdline_len); addr[cmdline_len] = 0;
                let buf := cl ++ [0]
                let hdr1 := { hdr0 with cmd_line_ptr := a % 2 ^ 32 }
                let hdr2 := { hdr1 with
                  ramdisk_image := initrd_addr % 2 ^ 32
                  ramdisk_size := initrd_size % 2 ^ 32 }
                { status := EFI_LOAD_ERROR, allocCalls := [req1, req2],
                  bootParamsAddr := some bp, bootHdr := some hdr2,
                  blockOther := some other, cmdlineBuf := some (a, buf),
                  call := some (linux_efi_handover is64 st image bp hdr2) }

/-- Modelled from the spec: the abstract state of the firmware-supplied
device tree blob, as far as `update_fdt` observes and mutates it through
the missing `libfdt`.  `magicOk`: whether `fdt_check_header` passes;
`chosenPresent` / `chosenProps`: the root's "chosen" subnode and its
properties (name, byte value); `addNodeOk`: whether `fdt_add_subnode`
would succeed (blob slack space); `setpropStartOk` / `setpropEndOk`:
whether the first `fdt_setprop` (the `linux,initrd-start` write) and the
second one (the `linux,initrd-end` write) would succeed — the two calls
in the C code have independent outcomes. -/
structure Fdt where
  magicOk : Bool
  totalsize : Nat
  chosenPresent : Bool
  chosenProps : List (String × List Nat)
  addNodeOk : Bool
  setpropStartOk : Bool
  setpropEndOk : Bool
deriving DecidableEq, Repr

/-- Modelled from the spec: `fdt_check_header` returns 0 on a valid blob
header and a negative libfdt error code otherwise. -/
def fdt_check_header (f : Fdt) : Int :=
  if f.magicOk then 0 else -9

/-- Modelled from the spec: `cpu_to_fdt64` stores a 64-bit value in
big-endian byte order; these are its 8 bytes, most significant first. -/
def cpu_to_fdt64 (n : Nat) : List Nat :=
  let m := n % 2 ^ 64
  [m / 2 ^ 56 % 256, m / 2 ^ 48 % 256, m / 2 ^ 40 % 256, m / 2 ^ 32 % 256,
   m / 2 ^ 24 % 256, m / 2 ^ 16 % 256, m / 2 ^ 8 % 256, m % 256]

/-- Modelled from the spec: `fdt_setprop` binds `name` to `v` among the
"chosen" node's properties, replacing an existing binding of that name. -/
def setPropAssoc (props : List (String × List Nat)) (name : String)
    (v : List Nat) : List (String × List Nat) :=
  match props with
  | [] => [(name, v)]
  | (n, w) :: rest =>
      if n = name then (n, v) :: rest else (n, w) :: setPropAssoc rest name v

/-- `open_fdt`: the configuration-table lookup (`dtb`, `none` when the
table is absent) followed by the header check; returns the blob or
nothing, together with the `Print` diagnostics it emits. -/
def open_fdt (dtb : Option Fdt) : Option Fdt × List String :=
  match dtb with
  | none => (none, ["DTB table not found"])
  | some f =>
      if fdt_check_header f ≠ 0 then
        (none, ["Invalid header detected on UEFI supplied FDT"])
      else
        (some f, ["Size of fdt is " ++ toString f.totalsize])

/-- Everything observable about one run of `update_fdt`: the blob after the
call (unchanged when the patch was abandoned), the `fdt_setprop` writes
actually attempted (property name and bytes, in order), and the console
log. -/
structure FdtOutcome where
  fdt : Option Fdt
  propWrites : List (String × List Nat)
  log : List String
deriving DecidableEq, Repr

/-- `update_fdt(initrd_addr, initrd_size)`: open the blob; find or create
the "chosen" subnode of the root; write `linux,initrd-start` and
`linux,initrd-end` as big-endian 64-bit properties.  Every failure
returns without error propagation. -/
def update_fdt (dtb : Option Fdt) (initrd_addr initrd_size : Nat) : FdtOutcome :=
  match open_fdt dtb with
  | (none, log) => { fdt := dtb, propWrites := [], log := log }
  | (some f, log) =>
      let patch : Fdt → FdtOutcome := fun f1 =>
        let startBytes := cpu_to_fdt64 initrd_addr
        let endBytes := cpu_to_fdt64 (initrd_addr + initrd_size)
        -- status = fdt_setprop_var(fdt, node, "linux,initrd-start", initrd_start)
        if ¬ f1.setpropStartOk then
          { fdt := some f1, propWrites := [("linux,initrd-start", startBytes)],
            log := log ++ ["Cannot create initrd-start property"] }
        else
          let f2 := { f1 with
            chosenProps := setPropAssoc f1.chosenProps "linux,initrd-start" startBytes }
          -- status = fdt_setprop_var(fdt, node, "linux,initrd-end", initrd_end)
          if ¬ f2.setpropEndOk then
            { fdt := some f2
              propWrites := [("linux,initrd-start", startBytes),
                             ("linux,initrd-end", endBytes)]
              log := log ++ ["Cannot create initrd-end property"] }
          else
            { fdt := some { f2 with
                chosenProps := setPropAssoc f2.chosenProps "linux,initrd-end" endBytes }
              propWrites := [("linux,initrd-start", startBytes),
                             ("linux,initrd-end", endBytes)]
              log := log }
      -- node = fdt_subnode_offset(fdt, 0, "chosen"); if absent, fdt_add_subnode
      if f.chosenPresent then patch f
      else if f.addNodeOk then
        patch { f with chosenPresent := true, chosenProps := [] }
      else
        { fdt := some f, propWrites := [],
          log := log ++ ["Error creating chosen"] }

/-- The reads `linux_aarch64_exec` performs on the loaded arm64 image:
`hdrOffsetAt p` is the `hdr_offset` field of the
`struct arm64_kernel_header` at address `p`, and `entryAddrAt p` is the
`opt.entry_addr` field of the `struct arm64_linux_pe_header` at
address `p` (both structs live in the missing `linux.h`). -/
structure Arm64Mem where
  hdrOffsetAt : Nat → Nat
  entryAddrAt : Nat → Nat

/-- Everything observable about one run of `linux_aarch64_exec`. -/
structure Arm64Outcome where
  fdtOut : FdtOutcome
  call : HandoverCall
  log : List String
  status : Nat
deriving Repr

/-- `linux_aarch64_exec(image, cmdline, cmdline_len, linux_addr,
initrd_addr, initrd_size)`: patch the device tree when an initrd is
present, then jump to `linux_addr + pe->opt.entry_addr` where
`pe = linux_addr + hdr->hdr_offset`, passing
`handover(image, ST, image)`.  The cmdline arguments are unused by the
code. -/
def linux_aarch64_exec (dtb : Option Fdt) (st image : Nat)
    (cmdline : Option (List Nat)) (mem : Arm64Mem)
    (linux_addr initrd_addr initrd_size : Nat) : Arm64Outcome :=
  let _ := cmdline
  let fdtOut :=
    if initrd_size ≠ 0 then update_fdt dtb initrd_addr initrd_size
    else { fdt := dtb, propWrites := [], log := [] }
  let hdr_offset := mem.hdrOffsetAt linux_addr
  let pe := linux_addr + hdr_offset
  let entry := linux_addr + mem.entryAddrAt pe
  { fdtOut := fdtOut
    call := { cli := false, entry := entry, arg1 := image, arg2 := st, arg3 := image }
    log := fdtOut.log ++ ["Calling now EFI kernel stub"]
    status := EFI_LOAD_ERROR }

/-! ### Helper material shared by the verification theorems -/

/-- A sample setup header that passes all four validation checks. -/
def sampleHdr : setup_header :=
  { setup_sects := 4, boot_flag := 0xAA55, header := SETUP_MAGIC,
    version := 0x20b, relocatable_kernel := 1, type_of_loader := 0,
    code32_start := 0, cmd_line_ptr := 0, ramdisk_image := 0,
    ramdisk_size := 0, handover_offset := 0x190, rest := [1, 2, 3] }

/-- A firmware allocator that grants every request at a fixed address
(used only to exercise the code on concrete runs). -/
def okAlloc : Allocator := fun _ _ => Except.ok 0x8000

/-- A firmware allocator that honours the `AllocateMaxAddress` contract:
it grants a request exactly when it fits below the maximum address, at
the highest page-aligned position. -/
def honestAlloc : Allocator := fun _ r =>
  if pageSize * r.pages ≤ r.maxAddr + 1 then
    Except.ok ((r.maxAddr + 1) / pageSize * pageSize - pageSize * r.pages)
  else
    Except.error (EFI_ERR + 9)

theorem honestAlloc_respects : AllocRespects honestAlloc := by
  intro i r a h
  simp only [honestAlloc] at h
  split at h
  case isTrue hle =>
    injection h with h
    simp only [pageSize] at hle h ⊢
    omega
  case isFalse hle =>
    exact absurd h (by simp)

/-- The four validation checks, as `linux_exec` requires them to pass. -/
def validatedHeader (h : setup_header) : Prop :=
  h.boot_flag = 0xAA55 ∧ h.header = SETUP_MAGIC ∧ 0x20b ≤ h.version ∧
    h.relocatable_kernel ≠ 0

instance (h : setup_header) : Decidable (validatedHeader h) := by
  unfold validatedHeader; infer_instance

/-- A header passing the four checks does not trip the rejection test at
the top of `linux_exec`. -/
theorem validatedHeader_not_rejected (h : setup_header) (hv : validatedHeader h) :
    ¬(h.boot_flag ≠ 0xAA55 ∨ h.header ≠ SETUP_MAGIC ∨ h.version < 0x20b ∨
      h.relocatable_kernel = 0) := by
  push_neg
  exact ⟨hv.1, hv.2.1, hv.2.2.1, hv.2.2.2⟩

/-- An arm64 image whose kernel header declares a PE header 64 bytes into
the image, that PE header declaring entry offset 0x10000. -/
def demoMem : Arm64Mem :=
  { hdrOffsetAt := fun _ => 64, entryAddrAt := fun _ => 0x10000 }

/-! ### C2 -/

/-- C2: a kernel image failing any of the four validation checks
(boot-sector signature, setup-header magic, minimum protocol version,
relocatable flag) makes `linux_exec` return `EFI_LOAD_ERROR` at once:
the outcome records zero allocation calls, no parameter block, no
command-line buffer and no handover call. -/
theorem c2_invalid_header_rejected_before_allocation
    (alloc : Allocator) (is64 : Bool) (st image : Nat)
    (cmdline : Option (List Nat)) (linux_addr initrd_addr initrd_size : Nat)
    (image_hdr : setup_header) (otherLen : Nat)
    (hbad : image_hdr.boot_flag ≠ 0xAA55 ∨ image_hdr.header ≠ SETUP_MAGIC ∨
      image_hdr.version < 0x20b ∨ image_hdr.relocatable_kernel = 0) :
    linux_exec alloc is64 st image cmdline linux_addr initrd_addr initrd_size
        image_hdr otherLen
      = { status := EFI_LOAD_ERROR, allocCalls := [], bootParamsAddr := none,
          bootHdr := none, blockOther := none, cmdlineBuf := none, call := none } := by
  unfold linux_exec
  rw [if_pos hbad]

/-- C2 witness: a header with a bad boot-sector signature is rejected with
no allocation recorded. -/
theorem c2_witness :
    linux_exec okAlloc true 7 5 (some [65]) 0x100000 0x3000000 0x800000
        { sampleHdr with boot_flag := 0 } 2
      = { status := EFI_LOAD_ERROR, allocCalls := [], bootParamsAddr := none,
          bootHdr := none, blockOther := none, cmdlineBuf := none, call := none } :=
  c2_invalid_header_rejected_before_allocation okAlloc true 7 5 (some [65])
    0x100000 0x3000000 0x800000 { sampleHdr with boot_flag := 0 } 2
    (Or.inl (by decide))

/-! ### C10 -/

/-- C10: `linux_aarch64_exec` validates nothing: whatever the image
contents (any `hdr_offset`, any entry field, any magic — `mem` is
arbitrary), it always reaches the handover call with the computed entry
address, and the only status it can return is the `EFI_LOAD_ERROR`
produced after a handover call that comes back. -/
theorem c10_aarch64_never_fails_before_handover
    (dtb : Option Fdt) (st image : Nat) (cmdline : Option (List Nat))
    (mem : Arm64Mem) (linux_addr initrd_addr initrd_size : Nat) :
    (linux_aarch64_exec dtb st image cmdline mem linux_addr initrd_addr
        initrd_size).status = EFI_LOAD_ERROR ∧
    (linux_aarch64_exec dtb st image cmdline mem linux_addr initrd_addr
        initrd_size).call
      = { cli := false
          entry := linux_addr + mem.entryAddrAt (linux_addr + mem.hdrOffsetAt linux_addr)
          arg1 := image, arg2 := st, arg3 := image } :=
  ⟨rfl, rfl⟩

/-! ### C1 -/

/-- C1 counterexample: the claim's entry formula (load address + header's
offset to the PE header + that header's entry offset) does not match
the code.  With `hdr_offset = 64` and `entry_addr = 0x10000` at load
address `0x200000`, the code jumps to `0x210000`, not
`0x200000 + 64 + 0x10000 = 0x210040`: the offset to the PE header only
locates that header, it is not added to the entry. -/
theorem c1_counterexample :
    (linux_aarch64_exec none 1 2 none demoMem 0x200000 0 0).call.entry = 0x210000 ∧
    (linux_aarch64_exec none 1 2 none demoMem 0x200000 0 0).call.entry
      ≠ 0x200000 + demoMem.hdrOffsetAt 0x200000
          + demoMem.entryAddrAt (0x200000 + demoMem.hdrOffsetAt 0x200000) := by
  constructor
  · rfl
  · decide

/-- C1 amended: for every arm64 boot, the handover entry address equals
the kernel load address plus the entry offset declared by the embedded
executable header, where that executable header is located at the load
address plus the kernel header's declared offset (the offset locates
the executable header but is not itself added to the entry); the call
passes the firmware image handle and the firmware system table as its
two meaningful arguments, and no parameter block equivalent is passed —
the third argument slot merely repeats the image handle. -/
theorem c1_amended_entry_and_args
    (dtb : Option Fdt) (st image : Nat) (cmdline : Option (List Nat))
    (mem : Arm64Mem) (linux_addr initrd_addr initrd_size : Nat) :
    (linux_aarch64_exec dtb st image cmdline mem linux_addr initrd_addr
        initrd_size).call
      = { cli := false
          entry := linux_addr + mem.entryAddrAt (linux_addr + mem.hdrOffsetAt linux_addr)
          arg1 := image
          arg2 := st
          arg3 := image } :=
  rfl

/-! ### C3 -/

/-- Truncating arithmetic on the load address collapses to plain addition
when the sum fits in 32 bits. -/
theorem mod32_add_eq_of_lt (x s : Nat) (h : x + s < 2 ^ 32) :
    (x % 2 ^ 32 + s) % 2 ^ 32 = x + s := by
  omega

/-- C3: for a validated image whose entry computation fits in 32 bits, the
parameter block's `code32_start` equals the load address plus
`(setup_sectors + 1) * 512`, where `setup_sectors` is the header's
`setup_sects` when positive and 4 when zero; in particular
`setup_sects = 0` gives `linux_addr + 5 * 512` and `setup_sects = N > 0`
gives `linux_addr + (N + 1) * 512`. -/
theorem c3_code32_start_formula
    (alloc : Allocator) (is64 : Bool) (st image : Nat)
    (cmdline : Option (List Nat)) (linux_addr initrd_addr initrd_size : Nat)
    (image_hdr : setup_header) (otherLen : Nat) (bp : Nat)
    (hv : validatedHeader image_hdr)
    (h0 : alloc 0 { maxAddr := 0xFFFFFFFF, pages := sizeToPages 0x4000 }
            = Except.ok bp)
    (hfit : linux_addr
        + ((if image_hdr.setup_sects > 0 then image_hdr.setup_sects else 4) + 1) * 512
        < 2 ^ 32) :
    (linux_exec alloc is64 st image cmdline linux_addr initrd_addr initrd_size
        image_hdr otherLen).bootHdr.map setup_header.code32_start
      = some (linux_addr
          + ((if image_hdr.setup_sects > 0 then image_hdr.setup_sects else 4) + 1) * 512)
    ∧ (image_hdr.setup_sects = 0 →
        (linux_exec alloc is64 st image cmdline linux_addr initrd_addr initrd_size
            image_hdr otherLen).bootHdr.map setup_header.code32_start
          = some (linux_addr + 5 * 512))
    ∧ (∀ N, image_hdr.setup_sects = N → 0 < N →
        (linux_exec alloc is64 st image cmdline linux_addr initrd_addr initrd_size
            image_hdr otherLen).bootHdr.map setup_header.code32_start
          = some (linux_addr + (N + 1) * 512)) := by
  have hval := validatedHeader_not_rejected image_hdr hv
  have hmain : (linux_exec alloc is64 st image cmdline linux_addr initrd_addr
      initrd_size image_hdr otherLen).bootHdr.map setup_header.code32_start
      = some (linux_addr
          + ((if image_hdr.setup_sects > 0 then image_hdr.setup_sects else 4) + 1) * 512) := by
    unfold linux_exec
    rw [if_neg hval]
    simp only [h0]
    have hs : setupSectors image_hdr
        = (if image_hdr.setup_sects > 0 then image_hdr.setup_sects else 4) := rfl
    cases cmdline with
    | none =>
        rw [hs, mod32_add_eq_of_lt _ _ hfit]
        rfl
    | some cl =>
        cases h1 : alloc 1 { maxAddr := 0xA0000, pages := sizeToPages (cl.length + 1) } with
        | error e =>
            simp only [h1]
            rw [hs, mod32_add_eq_of_lt _ _ hfit]
            rfl
        | ok a =>
            simp only [h1]
            rw [hs, mod32_add_eq_of_lt _ _ hfit]
            rfl
  refine ⟨hmain, ?_, ?_⟩
  · intro hz
    rw [hmain, hz]
    norm_num
  · intro N hN hNpos
    rw [hmain, hN]
    have hif : (if N > 0 then N else 4) = N := if_pos hNpos
    rw [hif]

/-- C3 witness: a concrete validated image with `setup_sects = 4` loaded at
`0x100000` gets `code32_start = 0x100000 + 5 * 512 = 0x100A00`. -/
theorem c3_witness :
    (linux_exec honestAlloc true 7 5 none 0x100000 0x3000000 0x800000 sampleHdr
        2).bootHdr.map setup_header.code32_start = some 0x100A00
    ∧ (sampleHdr.setup_sects = 0 →
        (linux_exec honestAlloc true 7 5 none 0x100000 0x3000000 0x800000 sampleHdr
            2).bootHdr.map setup_header.code32_start = some (0x100000 + 5 * 512))
    ∧ (∀ N, sampleHdr.setup_sects = N → 0 < N →
        (linux_exec honestAlloc true 7 5 none 0x100000 0x3000000 0x800000 sampleHdr
            2).bootHdr.map setup_header.code32_start = some (0x100000 + (N + 1) * 512)) :=
  c3_code32_start_formula honestAlloc true 7 5 none 0x100000 0x3000000 0x800000
    sampleHdr 2 0xFFFFC000 (by decide) (by rfl) (by decide)

/-! ### C5 -/

/-- C5: for a validated image, under the `AllocateMaxAddress` contract the
16 KiB parameter block request covers exactly `0x4000` bytes and the
granted block lies entirely below 4 GiB; the block's bytes outside the
header region are all zero; the header region holds the image's header
with the loader identifier overwritten to `0xff`, and every header
component other than the five overwritten fields (`type_of_loader`,
`code32_start`, `cmd_line_ptr`, `ramdisk_image`, `ramdisk_size`) is
identical to the source header. -/
theorem c5_param_block_frame
    (alloc : Allocator) (is64 : Bool) (st image : Nat)
    (cmdline : Option (List Nat)) (linux_addr initrd_addr initrd_size : Nat)
    (image_hdr : setup_header) (otherLen : Nat) (bp : Nat)
    (hv : validatedHeader image_hdr)
    (hresp : AllocRespects alloc)
    (h0 : alloc 0 { maxAddr := 0xFFFFFFFF, pages := sizeToPages 0x4000 }
            = Except.ok bp) :
    pageSize * sizeToPages 0x4000 = 0x4000
    ∧ bp + 0x4000 ≤ 2 ^ 32
    ∧ (linux_exec alloc is64 st image cmdline linux_addr initrd_addr initrd_size
        image_hdr otherLen).bootParamsAddr = some bp
    ∧ (linux_exec alloc is64 st image cmdline linux_addr initrd_addr initrd_size
        image_hdr otherLen).allocCalls.head?
        = some { maxAddr := 0xFFFFFFFF, pages := sizeToPages 0x4000 }
    ∧ (linux_exec alloc is64 st image cmdline linux_addr initrd_addr initrd_size
        image_hdr otherLen).blockOther = some (List.replicate otherLen 0)
    ∧ ∃ h2, (linux_exec alloc is64 st image cmdline linux_addr initrd_addr
          initrd_size image_hdr otherLen).bootHdr = some h2
        ∧ h2.type_of_loader = 0xff
        ∧ h2.setup_sects = image_hdr.setup_sects
        ∧ h2.boot_flag = image_hdr.boot_flag
        ∧ h2.header = image_hdr.header
        ∧ h2.version = image_hdr.version
        ∧ h2.relocatable_kernel = image_hdr.relocatable_kernel
        ∧ h2.handover_offset = image_hdr.handover_offset
        ∧ h2.rest = image_hdr.rest := by
  have hval := validatedHeader_not_rejected image_hdr hv
  have hpage : pageSize * sizeToPages 0x4000 = 0x4000 := by
    simp only [pageSize, sizeToPages]
  have hbelow : bp + 0x4000 ≤ 2 ^ 32 := by
    have hb : bp + pageSize * sizeToPages 0x4000 ≤ 0xFFFFFFFF + 1 :=
      (hresp 0 { maxAddr := 0xFFFFFFFF, pages := sizeToPages 0x4000 } bp h0).2
    rw [hpage] at hb
    omega
  refine ⟨hpage, hbelow, ?_⟩
  unfold linux_exec
  rw [if_neg hval]
  simp only [h0]
  cases cmdline with
  | none =>
      exact ⟨rfl, rfl, rfl, ⟨_, rfl, rfl, rfl, rfl, rfl, rfl, rfl, rfl, rfl⟩⟩
  | some cl =>
      cases h1 : alloc 1 { maxAddr := 0xA0000, pages := sizeToPages (cl.length + 1) } with
      | error e =>
          simp only [h1]
          simp
      | ok a =>
          simp only [h1]
          simp

/-- C5 witness: the concrete end-to-end run of the spec (version `0x20b`,
relocatable, `setup_sects = 4`) with an honest allocator: the block sits
at `0xFFFFC000`, wholly below 4 GiB, loader identifier `0xff`, frame
fields untouched. -/
theorem c5_witness :
    pageSize * sizeToPages 0x4000 = 0x4000
    ∧ 0xFFFFC000 + 0x4000 ≤ 2 ^ 32
    ∧ (linux_exec honestAlloc true 7 5 (some [113]) 0x100000 0x3000000 0x800000
        sampleHdr 2).bootParamsAddr = some 0xFFFFC000
    ∧ (linux_exec honestAlloc true 7 5 (some [113]) 0x100000 0x3000000 0x800000
        sampleHdr 2).allocCalls.head?
        = some { maxAddr := 0xFFFFFFFF, pages := sizeToPages 0x4000 }
    ∧ (linux_exec honestAlloc true 7 5 (some [113]) 0x100000 0x3000000 0x800000
        sampleHdr 2).blockOther = some (List.replicate 2 0)
    ∧ ∃ h2, (linux_exec honestAlloc true 7 5 (some [113]) 0x100000 0x3000000
          0x800000 sampleHdr 2).bootHdr = some h2
        ∧ h2.type_of_loader = 0xff
        ∧ h2.setup_sects = sampleHdr.setup_sects
        ∧ h2.boot_flag = sampleHdr.boot_flag
        ∧ h2.header = sampleHdr.header
        ∧ h2.version = sampleHdr.version
        ∧ h2.relocatable_kernel = sampleHdr.relocatable_kernel
        ∧ h2.handover_offset = sampleHdr.handover_offset
        ∧ h2.rest = sampleHdr.rest :=
  c5_param_block_frame honestAlloc true 7 5 (some [113]) 0x100000 0x3000000
    0x800000 sampleHdr 2 0xFFFFC000 (by decide) honestAlloc_respects (by rfl)

/-! ### C8 -/

/-- C8: whenever `linux_exec` reaches the handover call, interrupts are
disabled exactly on the 64-bit build, the entry address equals the
parameter block's `code32_start` — advanced by 512 on 64-bit — plus the
handover offset (which is the kernel header's, copied unchanged), and
the status `linux_exec` returns (reachable only if the handover call
comes back) is `EFI_LOAD_ERROR`.  The sum is `UINTN` arithmetic, so the
stated equality holds when it fits the build's word width (2^32 on
i386, 2^64 on x86_64); past that the code wraps. -/
theorem c8_handover_entry_and_return
    (alloc : Allocator) (is64 : Bool) (st image : Nat)
    (cmdline : Option (List Nat)) (linux_addr initrd_addr initrd_size : Nat)
    (image_hdr : setup_header) (otherLen : Nat)
    (c : HandoverCall) (h2 : setup_header)
    (hcall : (linux_exec alloc is64 st image cmdline linux_addr initrd_addr
        initrd_size image_hdr otherLen).call = some c)
    (hhdr : (linux_exec alloc is64 st image cmdline linux_addr initrd_addr
        initrd_size image_hdr otherLen).bootHdr = some h2)
    (hfit : (if is64 then h2.code32_start + 512 else h2.code32_start)
        + h2.handover_offset < (if is64 then 2 ^ 64 else 2 ^ 32)) :
    c.cli = is64
    ∧ c.entry = (if is64 then h2.code32_start + 512 else h2.code32_start)
        + h2.handover_offset
    ∧ h2.handover_offset = image_hdr.handover_offset
    ∧ (linux_exec alloc is64 st image cmdline linux_addr initrd_addr initrd_size
        image_hdr otherLen).status = EFI_LOAD_ERROR := by
  unfold linux_exec at hcall hhdr ⊢
  by_cases hbad : image_hdr.boot_flag ≠ 0xAA55 ∨ image_hdr.header ≠ SETUP_MAGIC ∨
      image_hdr.version < 0x20b ∨ image_hdr.relocatable_kernel = 0
  · rw [if_pos hbad] at hcall
    exact absurd hcall (by simp)
  · rw [if_neg hbad] at hcall hhdr ⊢
    cases halloc : alloc 0 { maxAddr := 0xFFFFFFFF, pages := sizeToPages 0x4000 } with
    | error e =>
        simp [halloc] at hcall
    | ok bp =>
        simp only [halloc] at hcall hhdr ⊢
        cases cmdline with
        | none =>
            simp only [Option.some.injEq] at hcall hhdr
            subst hcall
            subst hhdr
            exact ⟨rfl, Nat.mod_eq_of_lt hfit, rfl, rfl⟩
        | some cl =>
            cases h1 : alloc 1 { maxAddr := 0xA0000, pages := sizeToPages (cl.length + 1) } with
            | error e =>
                simp [h1] at hcall
            | ok a =>
                simp only [h1, Option.some.injEq] at hcall hhdr
                subst hcall
                subst hhdr
                refine ⟨rfl, Nat.mod_eq_of_lt hfit, rfl, ?_⟩
                simp only [h1]

/-- The handover call of the concrete C8 run. -/
def c8SampleCall : HandoverCall :=
  { cli := true, entry := 0x100D90, arg1 := 5, arg2 := 7, arg3 := 0x8000 }

/-- The parameter-block header of the concrete C8 run. -/
def c8SampleHdr : setup_header :=
  { sampleHdr with
    type_of_loader := 0xff
    code32_start := 0x100A00
    ramdisk_image := 0x3000000
    ramdisk_size := 0x800000 }

/-- C8 witness: on a concrete 64-bit run, entry `0x100D90 = 0x100A00 + 512
+ 0x190` and the post-handover status is the load error. -/
theorem c8_witness :
    c8SampleCall.cli = true
    ∧ c8SampleCall.entry
        = (if true then c8SampleHdr.code32_start + 512 else c8SampleHdr.code32_start)
          + c8SampleHdr.handover_offset
    ∧ c8SampleHdr.handover_offset = sampleHdr.handover_offset
    ∧ (linux_exec okAlloc true 7 5 none 0x100000 0x3000000 0x800000 sampleHdr
        2).status = EFI_LOAD_ERROR :=
  c8_handover_entry_and_return okAlloc true 7 5 none 0x100000 0x3000000 0x800000
    sampleHdr 2 c8SampleCall c8SampleHdr (by decide) (by decide) (by decide)

/-! ### C9 -/

/-- C9: when the command-line buffer allocation fails, the allocator's
error status is returned verbatim, no buffer is staged, no handover is
attempted, and the already-built parameter block still carries the
loader identifier, the computed entry, and a `cmd_line_ptr` untouched
since the header copy (equal to the source header's field). -/
theorem c9_cmdline_alloc_failure_propagates
    (alloc : Allocator) (is64 : Bool) (st image : Nat) (cl : List Nat)
    (linux_addr initrd_addr initrd_size : Nat) (image_hdr : setup_header)
    (otherLen : Nat) (bp e : Nat)
    (hv : validatedHeader image_hdr)
    (h0 : alloc 0 { maxAddr := 0xFFFFFFFF, pages := sizeToPages 0x4000 }
            = Except.ok bp)
    (h1 : alloc 1 { maxAddr := 0xA0000, pages := sizeToPages (cl.length + 1) }
            = Except.error e) :
    ∃ h2, (linux_exec alloc is64 st image (some cl) linux_addr initrd_addr
        initrd_size image_hdr otherLen).status = e
      ∧ (linux_exec alloc is64 st image (some cl) linux_addr initrd_addr
          initrd_size image_hdr otherLen).cmdlineBuf = none
      ∧ (linux_exec alloc is64 st image (some cl) linux_addr initrd_addr
          initrd_size image_hdr otherLen).call = none
      ∧ (linux_exec alloc is64 st image (some cl) linux_addr initrd_addr
          initrd_size image_hdr otherLen).bootParamsAddr = some bp
      ∧ (linux_exec alloc is64 st image (some cl) linux_addr initrd_addr
          initrd_size image_hdr otherLen).bootHdr = some h2
      ∧ h2.cmd_line_ptr = image_hdr.cmd_line_ptr
      ∧ h2.type_of_loader = 0xff
      ∧ h2.code32_start
          = (linux_addr % 2 ^ 32 + (setupSectors image_hdr + 1) * 512) % 2 ^ 32
      ∧ h2.handover_offset = image_hdr.handover_offset
      ∧ h2.rest = image_hdr.rest := by
  have hval := validatedHeader_not_rejected image_hdr hv
  unfold linux_exec
  rw [if_neg hval]
  simp only [h0]
  simp only [h1]
  simp

/-- An allocator that grants the first request and refuses the second. -/
def failSecondAlloc : Allocator := fun i _ =>
  if i = 0 then Except.ok 0x9000 else Except.error (EFI_ERR + 9)

/-- C9 witness: with an allocator refusing the command-line request, the
run returns that error, stages nothing, and keeps `cmd_line_ptr = 0`
as copied from the sample header. -/
theorem c9_witness :
    ∃ h2, (linux_exec failSecondAlloc true 7 5 (some [113, 117]) 0x100000
        0x3000000 0x800000 sampleHdr 2).status = EFI_ERR + 9
      ∧ (linux_exec failSecondAlloc true 7 5 (some [113, 117]) 0x100000
          0x3000000 0x800000 sampleHdr 2).cmdlineBuf = none
      ∧ (linux_exec failSecondAlloc true 7 5 (some [113, 117]) 0x100000
          0x3000000 0x800000 sampleHdr 2).call = none
      ∧ (linux_exec failSecondAlloc true 7 5 (some [113, 117]) 0x100000
          0x3000000 0x800000 sampleHdr 2).bootParamsAddr = some 0x9000
      ∧ (linux_exec failSecondAlloc true 7 5 (some [113, 117]) 0x100000
          0x3000000 0x800000 sampleHdr 2).bootHdr = some h2
      ∧ h2.cmd_line_ptr = sampleHdr.cmd_line_ptr
      ∧ h2.type_of_loader = 0xff
      ∧ h2.code32_start
          = (0x100000 % 2 ^ 32 + (setupSectors sampleHdr + 1) * 512) % 2 ^ 32
      ∧ h2.handover_offset = sampleHdr.handover_offset
      ∧ h2.rest = sampleHdr.rest :=
  c9_cmdline_alloc_failure_propagates failSecondAlloc true 7 5 [113, 117]
    0x100000 0x3000000 0x800000 sampleHdr 2 0x9000 (EFI_ERR + 9)
    (by decide) (by rfl) (by rfl)

/-! ### C4 -/

/-- C4 counterexample: (a) the staging is gated on the command-line
pointer being non-null, not on the command line being non-empty — a
supplied *empty* command line still gets a buffer staged; (b) with no
command line supplied, `cmd_line_ptr` is not necessarily zero: it keeps
whatever value the image's header carried through the verbatim copy
(here 7). -/
theorem c4_counterexample :
    (linux_exec okAlloc false 7 5 (some []) 0x100000 0x3000000 0x800000
        sampleHdr 2).cmdlineBuf ≠ none
    ∧ (linux_exec okAlloc false 7 5 none 0x100000 0x3000000 0x800000
        { sampleHdr with cmd_line_ptr := 7 } 2).bootHdr.map
          setup_header.cmd_line_ptr ≠ some 0 := by
  decide

/-- Any address granted for the command-line request under the
`AllocateMaxAddress` contract leaves the whole staged buffer (its
`L + 1` used bytes) strictly below `0xA0000`. -/
theorem staged_buffer_below_ceiling (a L : Nat) (hal : a % pageSize = 0)
    (hmax : a + pageSize * sizeToPages (L + 1) ≤ 0xA0000 + 1) :
    a + (L + 1) ≤ 0xA0000 := by
  simp only [pageSize, sizeToPages] at hal hmax
  omega

/-- C4 amended: if and only if a command line is supplied (non-null
pointer — even an empty one), `linux_exec` stages a buffer whose used
content is exactly `length + 1` bytes ending in the zero terminator,
placed strictly below `0xA0000` under the allocator contract, and
stores the buffer address into `cmd_line_ptr`; when no command line is
supplied, no staging allocation is issued and `cmd_line_ptr` keeps the
value copied from the image's own header (zero whenever that source
field is zero). -/
theorem c4_amended_cmdline_staging
    (alloc : Allocator) (is64 : Bool) (st image : Nat) (cl : List Nat)
    (linux_addr initrd_addr initrd_size : Nat) (image_hdr : setup_header)
    (otherLen : Nat) (bp a : Nat)
    (hv : validatedHeader image_hdr)
    (h0 : alloc 0 { maxAddr := 0xFFFFFFFF, pages := sizeToPages 0x4000 }
            = Except.ok bp)
    (h1 : alloc 1 { maxAddr := 0xA0000, pages := sizeToPages (cl.length + 1) }
            = Except.ok a)
    (hal : a % pageSize = 0)
    (hmax : a + pageSize * sizeToPages (cl.length + 1) ≤ 0xA0000 + 1) :
    (∃ h2,
      (linux_exec alloc is64 st image (some cl) linux_addr initrd_addr
          initrd_size image_hdr otherLen).cmdlineBuf = some (a, cl ++ [0])
      ∧ (cl ++ [0]).length = cl.length + 1
      ∧ (cl ++ [0]).getLast? = some 0
      ∧ a + (cl.length + 1) ≤ 0xA0000
      ∧ (linux_exec alloc is64 st image (some cl) linux_addr initrd_addr
          initrd_size image_hdr otherLen).bootHdr = some h2
      ∧ h2.cmd_line_ptr = a)
    ∧ (∃ h3,
      (linux_exec alloc is64 st image none linux_addr initrd_addr initrd_size
          image_hdr otherLen).cmdlineBuf = none
      ∧ (linux_exec alloc is64 st image none linux_addr initrd_addr initrd_size
          image_hdr otherLen).allocCalls
          = [{ maxAddr := 0xFFFFFFFF, pages := sizeToPages 0x4000 }]
      ∧ (linux_exec alloc is64 st image none linux_addr initrd_addr initrd_size
          image_hdr otherLen).bootHdr = some h3
      ∧ h3.cmd_line_ptr = image_hdr.cmd_line_ptr) := by
  have hval := validatedHeader_not_rejected image_hdr hv
  have hceil : a + (cl.length + 1) ≤ 0xA0000 :=
    staged_buffer_below_ceiling a cl.length hal hmax
  have ha32 : a % 2 ^ 32 = a := Nat.mod_eq_of_lt (by omega)
  constructor
  · unfold linux_exec
    rw [if_neg hval]
    simp only [h0]
    simp only [h1]
    refine ⟨{ image_hdr with
        type_of_loader := 0xff
        code32_start := (linux_addr % 2 ^ 32 + (setupSectors image_hdr + 1) * 512) % 2 ^ 32
        cmd_line_ptr := a % 2 ^ 32
        ramdisk_image := initrd_addr % 2 ^ 32
        ramdisk_size := initrd_size % 2 ^ 32 },
      by simp, by simp, List.getLast?_concat cl, hceil, by simp, ha32⟩
  · unfold linux_exec
    rw [if_neg hval]
    simp only [h0]
    simp

/-- C4 witness: a two-byte command line staged at `0x9F000` by the honest
allocator: three used bytes, zero last, wholly below `0xA0000`, address
stored; and with no command line, no second request and `cmd_line_ptr`
keeps the copied (zero) value. -/
theorem c4_witness :
    (∃ h2,
      (linux_exec honestAlloc true 7 5 (some [108, 112]) 0x100000 0x3000000
          0x800000 sampleHdr 2).cmdlineBuf = some (0x9F000, [108, 112] ++ [0])
      ∧ (([108, 112] : List Nat) ++ [0]).length = ([108, 112] : List Nat).length + 1
      ∧ (([108, 112] : List Nat) ++ [0]).getLast? = some 0
      ∧ 0x9F000 + (([108, 112] : List Nat).length + 1) ≤ 0xA0000
      ∧ (linux_exec honestAlloc true 7 5 (some [108, 112]) 0x100000 0x3000000
          0x800000 sampleHdr 2).bootHdr = some h2
      ∧ h2.cmd_line_ptr = 0x9F000)
    ∧ (∃ h3,
      (linux_exec honestAlloc true 7 5 none 0x100000 0x3000000 0x800000
          sampleHdr 2).cmdlineBuf = none
      ∧ (linux_exec honestAlloc true 7 5 none 0x100000 0x3000000 0x800000
          sampleHdr 2).allocCalls
          = [{ maxAddr := 0xFFFFFFFF, pages := sizeToPages 0x4000 }]
      ∧ (linux_exec honestAlloc true 7 5 none 0x100000 0x3000000 0x800000
          sampleHdr 2).bootHdr = some h3
      ∧ h3.cmd_line_ptr = sampleHdr.cmd_line_ptr) :=
  c4_amended_cmdline_staging honestAlloc true 7 5 [108, 112] 0x100000 0x3000000
    0x800000 sampleHdr 2 0xFFFFC000 0x9F000 (by decide) (by rfl) (by rfl)
    (by decide) (by decide)

/-! ### C6 -/

/-- `List.lookup` finds the binding just written by `setPropAssoc`. -/
theorem lookup_setPropAssoc_self (props : List (String × List Nat))
    (name : String) (v : List Nat) :
    (setPropAssoc props name v).lookup name = some v := by
  induction props with
  | nil => simp [setPropAssoc, List.lookup]
  | cons p rest ih =>
      obtain ⟨n, w⟩ := p
      by_cases h : n = name
      · subst h
        simp [setPropAssoc, List.lookup]
      · have hbeq : (name == n) = false := beq_eq_false_iff_ne.mpr (Ne.symm h)
        simp [setPropAssoc, h, List.lookup, hbeq, ih]

/-- `setPropAssoc` leaves bindings of other names untouched. -/
theorem lookup_setPropAssoc_other (props : List (String × List Nat))
    (name nm : String) (v : List Nat) (h : nm ≠ name) :
    (setPropAssoc props name v).lookup nm = props.lookup nm := by
  have hbne : (nm == name) = false := beq_eq_false_iff_ne.mpr h
  induction props with
  | nil => simp [setPropAssoc, List.lookup, hbne]
  | cons p rest ih =>
      obtain ⟨n, w⟩ := p
      by_cases hn : n = name
      · subst hn
        simp [setPropAssoc, List.lookup, hbne]
      · cases hnm : nm == n with
        | true => simp [setPropAssoc, hn, List.lookup, hnm]
        | false => simp [setPropAssoc, hn, List.lookup, hnm, ih]

/-- When the blob opens cleanly, the "chosen" node exists or can be
created, and property writes succeed, `update_fdt` ends with a blob
whose "chosen" node binds both initrd properties. -/
theorem update_fdt_success (f : Fdt) (initrd_addr initrd_size : Nat)
    (hm : f.magicOk = true) (hnode : f.chosenPresent = true ∨ f.addNodeOk = true)
    (hsp1 : f.setpropStartOk = true) (hsp2 : f.setpropEndOk = true) :
    ∃ f2, (update_fdt (some f) initrd_addr initrd_size).fdt = some f2
      ∧ f2.chosenPresent = true
      ∧ f2.chosenProps.lookup "linux,initrd-start"
          = some (cpu_to_fdt64 initrd_addr)
      ∧ f2.chosenProps.lookup "linux,initrd-end"
          = some (cpu_to_fdt64 (initrd_addr + initrd_size)) := by
  have hstart : ("linux,initrd-start" : String) ≠ "linux,initrd-end" := by decide
  cases hcp : f.chosenPresent with
  | true =>
      refine ⟨{ f with chosenProps := setPropAssoc (setPropAssoc f.chosenProps "linux,initrd-start" (cpu_to_fdt64 initrd_addr)) "linux,initrd-end" (cpu_to_fdt64 (initrd_addr + initrd_size)) }, ?_, ?_, ?_, ?_⟩
      · simp [update_fdt, open_fdt, fdt_check_header, hm, hcp, hsp1, hsp2]
      · exact hcp
      · rw [lookup_setPropAssoc_other _ _ _ _ hstart, lookup_setPropAssoc_self]
      · rw [lookup_setPropAssoc_self]
  | false =>
      have hadd : f.addNodeOk = true := by
        rcases hnode with hnode | hnode
        · rw [hcp] at hnode; cases hnode
        · exact hnode
      refine ⟨{ f with chosenPresent := true, chosenProps := setPropAssoc (setPropAssoc [] "linux,initrd-start" (cpu_to_fdt64 initrd_addr)) "linux,initrd-end" (cpu_to_fdt64 (initrd_addr + initrd_size)) }, ?_, rfl, ?_, ?_⟩
      · simp [update_fdt, open_fdt, fdt_check_header, hm, hcp, hadd, hsp1, hsp2]
      · rw [lookup_setPropAssoc_other _ _ _ _ hstart, lookup_setPropAssoc_self]
      · rw [lookup_setPropAssoc_self]

/-- C6: for an arm64 boot with a well-formed blob (lookup succeeds, magic
check passes), a creatable or present "chosen" node, successful writes
and a non-zero initrd, the patched blob's "chosen" node binds
`linux,initrd-start` to the initrd address and `linux,initrd-end` to
address + size, each as the 8-byte big-endian encoding
(`cpu_to_fdt64`). -/
theorem c6_chosen_node_initrd_properties
    (dtb : Option Fdt) (st image : Nat) (cmdline : Option (List Nat))
    (mem : Arm64Mem) (linux_addr initrd_addr initrd_size : Nat) (f : Fdt)
    (hd : dtb = some f) (hm : f.magicOk = true)
    (hnode : f.chosenPresent = true ∨ f.addNodeOk = true)
    (hsp1 : f.setpropStartOk = true) (hsp2 : f.setpropEndOk = true)
    (hsz : initrd_size ≠ 0) :
    ∃ f2, (linux_aarch64_exec dtb st image cmdline mem linux_addr initrd_addr
        initrd_size).fdtOut.fdt = some f2
      ∧ f2.chosenPresent = true
      ∧ f2.chosenProps.lookup "linux,initrd-start"
          = some (cpu_to_fdt64 initrd_addr)
      ∧ f2.chosenProps.lookup "linux,initrd-end"
          = some (cpu_to_fdt64 (initrd_addr + initrd_size))
      ∧ (cpu_to_fdt64 initrd_addr).length = 8
      ∧ (cpu_to_fdt64 (initrd_addr + initrd_size)).length = 8 := by
  subst hd
  have hfdtOut : (linux_aarch64_exec (some f) st image cmdline mem linux_addr
      initrd_addr initrd_size).fdtOut
      = update_fdt (some f) initrd_addr initrd_size := by
    show (if initrd_size ≠ 0 then update_fdt (some f) initrd_addr initrd_size
        else { fdt := some f, propWrites := [], log := [] })
      = update_fdt (some f) initrd_addr initrd_size
    rw [if_pos hsz]
  rw [hfdtOut]
  obtain ⟨f2, h1, h2, h3, h4⟩ :=
    update_fdt_success f initrd_addr initrd_size hm hnode hsp1 hsp2
  exact ⟨f2, h1, h2, h3, h4, rfl, rfl⟩

/-- A concrete well-formed blob: valid magic, no "chosen" node yet, room
to create it, writable. -/
def demoFdt : Fdt :=
  { magicOk := true, totalsize := 0x1000, chosenPresent := false,
    chosenProps := [], addNodeOk := true, setpropStartOk := true,
    setpropEndOk := true }

/-- C6 witness: patching the concrete blob with initrd at `0x3000000`,
size `0x800000`, binds both properties as 8-byte big-endian values. -/
theorem c6_witness :
    ∃ f2, (linux_aarch64_exec (some demoFdt) 1 2 none demoMem 0x200000 0x3000000
        0x800000).fdtOut.fdt = some f2
      ∧ f2.chosenPresent = true
      ∧ f2.chosenProps.lookup "linux,initrd-start"
          = some (cpu_to_fdt64 0x3000000)
      ∧ f2.chosenProps.lookup "linux,initrd-end"
          = some (cpu_to_fdt64 (0x3000000 + 0x800000))
      ∧ (cpu_to_fdt64 0x3000000).length = 8
      ∧ (cpu_to_fdt64 (0x3000000 + 0x800000)).length = 8 :=
  c6_chosen_node_initrd_properties (some demoFdt) 1 2 none demoMem 0x200000
    0x3000000 0x800000 demoFdt rfl (by decide) (Or.inr (by decide)) (by decide)
    (by decide) (by decide)

/-! ### C7 -/

/-- C7: with an initrd present, every device-tree failure is soft:
whatever the blob environment, `linux_aarch64_exec` still reaches the
handover call at the computed entry and its only status is the
post-handover load error; moreover each failure mode — configuration
table absent, header magic mismatch, "chosen" creation failure, failure
of the `linux,initrd-start` write, failure of the `linux,initrd-end`
write after the first write succeeded — leaves its diagnostic in the
log, and a failed lookup attempts no property write at all (magic
mismatch and creation failure likewise write nothing). -/
theorem c7_fdt_failures_are_soft
    (dtb : Option Fdt) (st image : Nat) (cmdline : Option (List Nat))
    (mem : Arm64Mem) (linux_addr initrd_addr initrd_size : Nat)
    (hsz : initrd_size ≠ 0) :
    ((linux_aarch64_exec dtb st image cmdline mem linux_addr initrd_addr
        initrd_size).call
      = { cli := false
          entry := linux_addr + mem.entryAddrAt (linux_addr + mem.hdrOffsetAt linux_addr)
          arg1 := image, arg2 := st, arg3 := image }
      ∧ (linux_aarch64_exec dtb st image cmdline mem linux_addr initrd_addr
          initrd_size).status = EFI_LOAD_ERROR)
    ∧ (dtb = none →
        (linux_aarch64_exec dtb st image cmdline mem linux_addr initrd_addr
          initrd_size).fdtOut.propWrites = []
        ∧ "DTB table not found" ∈ (linux_aarch64_exec dtb st image cmdline mem
            linux_addr initrd_addr initrd_size).fdtOut.log)
    ∧ (∀ f, dtb = some f → f.magicOk = false →
        (linux_aarch64_exec dtb st image cmdline mem linux_addr initrd_addr
          initrd_size).fdtOut.propWrites = []
        ∧ "Invalid header detected on UEFI supplied FDT"
            ∈ (linux_aarch64_exec dtb st image cmdline mem linux_addr
                initrd_addr initrd_size).fdtOut.log)
    ∧ (∀ f, dtb = some f → f.magicOk = true → f.chosenPresent = false →
        f.addNodeOk = false →
        (linux_aarch64_exec dtb st image cmdline mem linux_addr initrd_addr
          initrd_size).fdtOut.propWrites = []
        ∧ "Error creating chosen" ∈ (linux_aarch64_exec dtb st image cmdline
            mem linux_addr initrd_addr initrd_size).fdtOut.log)
    ∧ (∀ f, dtb = some f → f.magicOk = true →
        (f.chosenPresent = true ∨ f.addNodeOk = true) →
        f.setpropStartOk = false →
        "Cannot create initrd-start property"
          ∈ (linux_aarch64_exec dtb st image cmdline mem linux_addr initrd_addr
              initrd_size).fdtOut.log)
    ∧ (∀ f, dtb = some f → f.magicOk = true →
        (f.chosenPresent = true ∨ f.addNodeOk = true) →
        f.setpropStartOk = true → f.setpropEndOk = false →
        "Cannot create initrd-end property"
          ∈ (linux_aarch64_exec dtb st image cmdline mem linux_addr initrd_addr
              initrd_size).fdtOut.log) := by
  have hfdtOut : (linux_aarch64_exec dtb st image cmdline mem linux_addr
      initrd_addr initrd_size).fdtOut
      = update_fdt dtb initrd_addr initrd_size := by
    show (if initrd_size ≠ 0 then update_fdt dtb initrd_addr initrd_size
        else { fdt := dtb, propWrites := [], log := [] })
      = update_fdt dtb initrd_addr initrd_size
    rw [if_pos hsz]
  refine ⟨⟨rfl, rfl⟩, ?_, ?_, ?_, ?_, ?_⟩
  · intro hd
    subst hd
    rw [hfdtOut]
    exact ⟨rfl, by simp [update_fdt, open_fdt]⟩
  · intro f hd hmagic
    subst hd
    rw [hfdtOut]
    constructor
    · simp [update_fdt, open_fdt, fdt_check_header, hmagic]
    · simp [update_fdt, open_fdt, fdt_check_header, hmagic]
  · intro f hd hmagic hcp hadd
    subst hd
    rw [hfdtOut]
    constructor
    · simp [update_fdt, open_fdt, fdt_check_header, hmagic, hcp, hadd]
    · simp [update_fdt, open_fdt, fdt_check_header, hmagic, hcp, hadd]
  · intro f hd hmagic hnode hsp1
    subst hd
    rw [hfdtOut]
    rcases hnode with hcp | hadd
    · simp [update_fdt, open_fdt, fdt_check_header, hmagic, hcp, hsp1]
    · cases hcp : f.chosenPresent with
      | true => simp [update_fdt, open_fdt, fdt_check_header, hmagic, hcp, hsp1]
      | false =>
          simp [update_fdt, open_fdt, fdt_check_header, hmagic, hcp, hadd, hsp1]
  · intro f hd hmagic hnode hsp1 hsp2
    subst hd
    rw [hfdtOut]
    rcases hnode with hcp | hadd
    · simp [update_fdt, open_fdt, fdt_check_header, hmagic, hcp, hsp1, hsp2]
    · cases hcp : f.chosenPresent with
      | true =>
          simp [update_fdt, open_fdt, fdt_check_header, hmagic, hcp, hsp1, hsp2]
      | false =>
          simp [update_fdt, open_fdt, fdt_check_header, hmagic, hcp, hadd, hsp1,
            hsp2]

/-- C7 witness: with the configuration table absent (`dtb = none`) and a
non-zero initrd, the boot still reaches handover with the computed
entry, returns only the post-handover load error, attempts no property
write, and logs the lookup failure. -/
theorem c7_witness :
    ((linux_aarch64_exec none 1 2 none demoMem 0x200000 0x3000000
        0x800000).call
      = { cli := false
          entry := 0x200000 + demoMem.entryAddrAt (0x200000 + demoMem.hdrOffsetAt 0x200000)
          arg1 := 2, arg2 := 1, arg3 := 2 }
      ∧ (linux_aarch64_exec none 1 2 none demoMem 0x200000 0x3000000
          0x800000).status = EFI_LOAD_ERROR)
    ∧ ((none : Option Fdt) = none →
        (linux_aarch64_exec none 1 2 none demoMem 0x200000 0x3000000
          0x800000).fdtOut.propWrites = []
        ∧ "DTB table not found" ∈ (linux_aarch64_exec none 1 2 none demoMem
            0x200000 0x3000000 0x800000).fdtOut.log)
    ∧ (∀ f, (none : Option Fdt) = some f → f.magicOk = false →
        (linux_aarch64_exec none 1 2 none demoMem 0x200000 0x3000000
          0x800000).fdtOut.propWrites = []
        ∧ "Invalid header detected on UEFI supplied FDT"
            ∈ (linux_aarch64_exec none 1 2 none demoMem 0x200000 0x3000000
                0x800000).fdtOut.log)
    ∧ (∀ f, (none : Option Fdt) = some f → f.magicOk = true →
        f.chosenPresent = false → f.addNodeOk = false →
        (linux_aarch64_exec none 1 2 none demoMem 0x200000 0x3000000
          0x800000).fdtOut.propWrites = []
        ∧ "Error creating chosen" ∈ (linux_aarch64_exec none 1 2 none demoMem
            0x200000 0x3000000 0x800000).fdtOut.log)
    ∧ (∀ f, (none : Option Fdt) = some f → f.magicOk = true →
        (f.chosenPresent = true ∨ f.addNodeOk = true) →
        f.setpropStartOk = false →
        "Cannot create initrd-start property"
          ∈ (linux_aarch64_exec none 1 2 none demoMem 0x200000 0x3000000
              0x800000).fdtOut.log)
    ∧ (∀ f, (none : Option Fdt) = some f → f.magicOk = true →
        (f.chosenPresent = true ∨ f.addNodeOk = true) →
        f.setpropStartOk = true → f.setpropEndOk = false →
        "Cannot create initrd-end property"
          ∈ (linux_aarch64_exec none 1 2 none demoMem 0x200000 0x3000000
              0x800000).fdtOut.log) :=
  c7_fdt_failures_are_soft none 1 2 none demoMem 0x200000 0x3000000 0x800000
    (by decide)
